import Mathlib

/-!
Shallow embedding of the genbank_seqkit repository: the xmltodict-shaped
record values, the list-normalization utility `_force_list`, the
`Transcript` model's fetch-and-populate feature walk, the two exporters
`as_fasta` and `as_genbank`, and the identifier validation performed by
`fetch_transcript_record` in `utils/entrez_efetch.py`.
-/

namespace GBSeq

/-- Python values as produced by xmltodict and consumed by the package:
None, strings, lists, and string-keyed dicts (dicts are modelled as
association lists with distinct keys, preserving insertion order). -/
inductive Val where
  | null : Val
  | str : String → Val
  | list : List Val → Val
  | obj : List (String × Val) → Val

/-- Python `x is None`. -/
def Val.isNull : Val → Bool
  | .null => true
  | _ => false

/-- Python `isinstance(x, list)`. -/
def Val.isList : Val → Bool
  | .list _ => true
  | _ => false

/-- Python equality test of a value against a string literal (`x == "s"`):
true only for an equal string; None, lists and dicts compare unequal. -/
def Val.eqStr : Val → String → Bool
  | .str t, s => t == s
  | _, _ => false

/-- Lookup in a dict modelled as an association list (Python dict keys are
unique, so the first match is the match). -/
def lookupStr : List (String × Val) → String → Option Val
  | [], _ => none
  | (k, v) :: fs, key => if k == key then some v else lookupStr fs key

/-- Python runtime errors that the embedded code can raise. -/
inductive PyErr where
  | keyError : String → PyErr
  | typeError : String → PyErr
  | attributeError : String → PyErr
  | valueError : String → PyErr

/-- Python one-argument dict get `x.get(k)`: None when the key is absent,
AttributeError when the receiver is not a dict. -/
def Val.get : Val → String → Except PyErr Val
  | .obj fs, k => .ok ((lookupStr fs k).getD .null)
  | _, k => .error (.attributeError k)

/-- Python two-argument dict get `x.get(k, d)`. -/
def Val.getd : Val → String → Val → Except PyErr Val
  | .obj fs, k, d => .ok ((lookupStr fs k).getD d)
  | _, k, _ => .error (.attributeError k)

/-- Python subscript `x[k]`: KeyError when the key is absent, TypeError on
a non-dict receiver. -/
def Val.item : Val → String → Except PyErr Val
  | .obj fs, k =>
    match lookupStr fs k with
    | some v => .ok v
    | none => .error (.keyError k)
  | _, k => .error (.typeError k)

/-- The `_force_list` utility of `src/utils/_force_list.py`: None becomes
the empty list, a list is returned unchanged, and any other value is
wrapped in a one-element list. The `verbose` flag only logs, so it is
dropped from the embedding. -/
def forceList : Val → List Val
  | .null => []
  | .list xs => xs
  | v => [v]

/-- Fuel-driven worker for Python `str.replace` with a non-empty pattern:
scan left to right, replacing every non-overlapping occurrence. The fuel
is an upper bound on the number of characters still to be scanned. -/
def replaceAllGo (pat rep : List Char) : Nat → List Char → List Char
  | _, [] => []
  | 0, l => l
  | fuel + 1, c :: cs =>
    if pat.isPrefixOf (c :: cs) && !pat.isEmpty then
      rep ++ replaceAllGo pat rep fuel (cs.drop (pat.length - 1))
    else
      c :: replaceAllGo pat rep fuel cs

/-- Python `s.replace(pat, rep)` for a non-empty pattern. -/
def replaceAllStr (pat rep s : String) : String :=
  String.mk (replaceAllGo pat.data rep.data s.data.length s.data)

/-- Python `s.startswith(pre)`. -/
def strStartsWith (s pre : String) : Bool := pre.data.isPrefixOf s.data

/-- Python `c in s` for a one-character needle (the version check uses
the needle "."). -/
def strContainsChar (s : String) (c : Char) : Bool := s.data.contains c

/-- ASCII case mapping of Python `str.upper`, applied per character (the
sequences and selectors handled by this package are ASCII). -/
def pyUpperChar (c : Char) : Char :=
  if 97 ≤ c.toNat ∧ c.toNat ≤ 122 then Char.ofNat (c.toNat - 32) else c

/-- Python `s.upper()` on a string. -/
def pyUpperStr (s : String) : String := String.mk (s.data.map pyUpperChar)

/-- Python `x.upper()` on a fetched value: uppercases a string, raises
AttributeError on anything else. -/
def Val.upper : Val → Except PyErr String
  | .str s => .ok (pyUpperStr s)
  | _ => .error (.attributeError "upper")

/-- Python `x.startswith(pre)` on a fetched value: AttributeError unless
the receiver is a string. -/
def Val.startswith : Val → String → Except PyErr Bool
  | .str s, pre => .ok (strStartsWith s pre)
  | _, _ => .error (.attributeError "startswith")

/-- Python `x.replace(pat, rep)` on a fetched value: AttributeError unless
the receiver is a string. -/
def Val.replace : Val → String → String → Except PyErr String
  | .str s, pat, rep => .ok (replaceAllStr pat rep s)
  | _, _, _ => .error (.attributeError "replace")

mutual

/-- Python `repr` for the embedded value type (ASCII approximation that
performs no escape processing inside strings). -/
def pyRepr : Val → String
  | .null => "None"
  | .str s => "\x27" ++ s ++ "\x27"
  | .list xs => "[" ++ pyReprList xs ++ "]"
  | .obj fs => "\x7b" ++ pyReprFields fs ++ "\x7d"

/-- Comma-separated reprs of the elements of a list. -/
def pyReprList : List Val → String
  | [] => ""
  | [x] => pyRepr x
  | x :: xs => pyRepr x ++ ", " ++ pyReprList xs

/-- Comma-separated reprs of the key/value pairs of a dict. -/
def pyReprFields : List (String × Val) → String
  | [] => ""
  | [(k, v)] => "\x27" ++ k ++ "\x27: " ++ pyRepr v
  | (k, v) :: fs => "\x27" ++ k ++ "\x27: " ++ pyRepr v ++ ", " ++ pyReprFields fs

end

/-- Python `str(x)` as applied by f-string interpolation. -/
def pyStr : Val → String
  | .null => "None"
  | .str s => s
  | v => pyRepr v

/-- The attributes of the `Transcript` model in
`src/genbank_seqkit/main.py`. Fields hold embedded Python values;
`Val.null` is the initial None assigned by the constructor. -/
structure Transcript where
  transcript_id : Val
  gene_symbol : Val
  hgnc_id : Val
  dna_sequence : Val
  rna_sequence : Val
  protein_sequence : Val
  protein_id : Val
  length : Val
  mol_type : Val
  gene_name : Val

/-- One iteration of the qualifier loop inside the `"gene"` branch of
`Transcript._fetch_and_populate`. -/
def processGeneQual (t : Transcript) (q : Val) : Except PyErr Transcript := do
  let name ← q.get "GBQualifier_name"
  if name.eqStr "gene" then
    let v ← q.get "GBQualifier_value"
    pure { t with gene_symbol := v }
  else if name.eqStr "db_xref" then
    let vd ← q.getd "GBQualifier_value" (.str "")
    let b ← vd.startswith "HGNC:"
    if b then
      let v ← q.get "GBQualifier_value"
      let s ← v.replace "HGNC:" ""
      pure { t with hgnc_id := .str s }
    else
      pure t
  else
    pure t

/-- One iteration of the qualifier loop inside the `"CDS"` branch of
`Transcript._fetch_and_populate`. -/
def processCDSQual (t : Transcript) (q : Val) : Except PyErr Transcript := do
  let name ← q.get "GBQualifier_name"
  if name.eqStr "translation" then
    let v ← q.get "GBQualifier_value"
    pure { t with protein_sequence := v }
  else if name.eqStr "protein_id" then
    let v ← q.get "GBQualifier_value"
    pure { t with protein_id := v }
  else
    pure t

/-- One iteration of the feature loop of `Transcript._fetch_and_populate`:
the qualifier container is normalized before the key is inspected, exactly
as in the source. -/
def processFeature (t : Transcript) (feature : Val) : Except PyErr Transcript := do
  let key ← feature.get "GBFeature_key"
  let fq ← feature.getd "GBFeature_quals" (.obj [])
  let gbq ← fq.get "GBQualifier"
  let quals := forceList gbq
  if key.eqStr "gene" then
    quals.foldlM processGeneQual t
  else if key.eqStr "CDS" then
    quals.foldlM processCDSQual t
  else
    pure t

/-- Extraction of the normalized feature list from the raw record:
`_force_list(record.get("GBSeq_feature-table", {}).get("GBFeature"))`. -/
def featuresOf (record : Val) : Except PyErr (List Val) := do
  let ft ← record.getd "GBSeq_feature-table" (.obj [])
  let gbf ← ft.get "GBFeature"
  pure (forceList gbf)

/-- The top-level field assignments of `Transcript._fetch_and_populate`
(identifier overwrite, sequence upper-casing, transcription, and the
pass-through fields), before the feature walk. -/
def populateTop (tid : String) (record : Val) : Except PyErr Transcript := do
  let acc ← record.getd "GBSeq_accession-version" (.str tid)
  let seqv ← record.item "GBSeq_sequence"
  let dna ← seqv.upper
  let len ← record.get "GBSeq_length"
  let mt ← record.get "GBSeq_moltype"
  let gn ← record.get "GBSeq_definition"
  pure { transcript_id := acc, gene_symbol := .null, hgnc_id := .null,
         dna_sequence := .str dna,
         rna_sequence := .str (replaceAllStr "T" "U" dna),
         protein_sequence := .null, protein_id := .null,
         length := len, mol_type := mt, gene_name := gn }

/-- `Transcript._fetch_and_populate` given the record returned by the
fetch collaborator (the network call itself is outside the embedding; its
result is passed in as `record`). -/
def fetchAndPopulateWith (tid : String) (record : Val) : Except PyErr Transcript := do
  let t1 ← populateTop tid record
  let fs ← featuresOf record
  fs.foldlM processFeature t1

/-- `Transcript.as_fasta`; `sequence` is the optional explicit argument
(`Val.null` models the Python default None). -/
def asFasta (t : Transcript) (sequence : Val) (seq_type : String) :
    Except PyErr String := do
  let sel ←
    if sequence.isNull then
      if pyUpperStr seq_type == "DNA" then pure t.dna_sequence
      else if pyUpperStr seq_type == "RNA" then pure t.rna_sequence
      else if pyUpperStr seq_type == "protein" then pure t.protein_sequence
      else Except.error (.valueError ("Unknown seq_type: " ++ seq_type))
    else
      pure sequence
  let sel := if sel.isNull || sel.eqStr "" then Val.str "" else sel
  pure ((">" ++ pyStr t.transcript_id ++ " | " ++ seq_type) ++ "\n" ++ pyStr sel)

/-- `Transcript.as_genbank`; same selection logic as `as_fasta`, with the
four-line pseudo-GenBank layout of the source. -/
def asGenbank (t : Transcript) (sequence : Val) (seq_type : String) :
    Except PyErr String := do
  let sel ←
    if sequence.isNull then
      if pyUpperStr seq_type == "DNA" then pure t.dna_sequence
      else if pyUpperStr seq_type == "RNA" then pure t.rna_sequence
      else if pyUpperStr seq_type == "protein" then pure t.protein_sequence
      else Except.error (.valueError ("Unknown seq_type: " ++ seq_type))
    else
      pure sequence
  let sel := if sel.isNull || sel.eqStr "" then Val.str "" else sel
  pure ("LOCUS        " ++ pyStr t.transcript_id ++ "\n" ++
        "DEFINITION   " ++ seq_type ++ " sequence\n" ++
        "ORIGIN\n" ++ pyStr sel ++ "\n//")

/-- The GET request that `fetch_transcript_record` goes on to issue once
the identifier has been validated. -/
structure EfetchRequest where
  url : String
  db : String
  id : String
  retmode : String

/-- What the validation prefix of `fetch_transcript_record` decides:
either the typed TranscriptIdError, raised before any network traffic, or
the network request the function performs. -/
inductive FetchOutcome where
  | transcriptIdError : String → FetchOutcome
  | request : EfetchRequest → FetchOutcome

/-- The identifier-validation logic of `fetch_transcript_record` in
`src/utils/entrez_efetch.py`, with the network side represented by the
request it would issue. -/
def fetch_transcript_record (transcript_id : String) : FetchOutcome :=
  if !(strStartsWith transcript_id "NM_" || strStartsWith transcript_id "NR_" ||
       strStartsWith transcript_id "XM_" || strStartsWith transcript_id "XR_") then
    .transcriptIdError ("Invalid transcript ID: " ++ transcript_id ++
      ". Must start with NM_, NR_, XM_, or XR_.")
  else if !(strContainsChar transcript_id '.') then
    .transcriptIdError ("Transcript ID " ++ transcript_id ++
      " must include a version number (e.g., NM_000093.4).")
  else
    .request { url := "https://eutils.ncbi.nlm.nih.gov/entrez/eutils/efetch.fcgi",
               db := "nucleotide", id := transcript_id, retmode := "xml" }

/-- Total dict get with default, used to state properties of records on
which population succeeded (it agrees with `Val.getd` wherever that does
not raise). -/
def dgetD (v : Val) (k : String) (d : Val) : Val :=
  match v with
  | .obj fs => (lookupStr fs k).getD d
  | _ => d

/-- Last element of a list, or the default when the list is empty. -/
def lastD (l : List α) (d : α) : α := l.foldl (fun _ x => x) d

/-- The normalized qualifier list of a feature. -/
def qualsOfD (f : Val) : List Val :=
  forceList (dgetD (dgetD f "GBFeature_quals" (.obj [])) "GBQualifier" .null)

/-- Value a qualifier of a `"gene"` feature writes to `gene_symbol`, if
any. -/
def geneQualWrite (q : Val) : Option Val :=
  if (dgetD q "GBQualifier_name" .null).eqStr "gene" then
    some (dgetD q "GBQualifier_value" .null)
  else none

/-- Value a qualifier of a `"gene"` feature writes to `hgnc_id`, if any. -/
def hgncQualWrite (q : Val) : Option Val :=
  if (dgetD q "GBQualifier_name" .null).eqStr "db_xref" then
    match dgetD q "GBQualifier_value" (.str "") with
    | .str s =>
      if strStartsWith s "HGNC:" then some (.str (replaceAllStr "HGNC:" "" s))
      else none
    | _ => none
  else none

/-- Value a qualifier of a `"CDS"` feature writes to `protein_sequence`,
if any. -/
def translationQualWrite (q : Val) : Option Val :=
  if (dgetD q "GBQualifier_name" .null).eqStr "translation" then
    some (dgetD q "GBQualifier_value" .null)
  else none

/-- Value a qualifier of a `"CDS"` feature writes to `protein_id`, if
any. -/
def proteinIdQualWrite (q : Val) : Option Val :=
  if (dgetD q "GBQualifier_name" .null).eqStr "protein_id" then
    some (dgetD q "GBQualifier_value" .null)
  else none

/-- The feature key of a feature entry. -/
def featureKeyD (f : Val) : Val := dgetD f "GBFeature_key" .null

/-- Writes contributed by one feature to one field, in qualifier order. -/
def featureWrites (qw : Val → Option Val) (ftKey : String) (f : Val) : List Val :=
  if (featureKeyD f).eqStr ftKey then (qualsOfD f).filterMap qw else []

/-- All writes to `gene_symbol` over a feature list, in walk order. -/
def geneSymbolWrites (fs : List Val) : List Val :=
  fs.flatMap (featureWrites geneQualWrite "gene")

/-- All writes to `hgnc_id` over a feature list, in walk order. -/
def hgncIdWrites (fs : List Val) : List Val :=
  fs.flatMap (featureWrites hgncQualWrite "gene")

/-- All writes to `protein_sequence` over a feature list, in walk order. -/
def proteinSeqWrites (fs : List Val) : List Val :=
  fs.flatMap (featureWrites translationQualWrite "CDS")

/-- All writes to `protein_id` over a feature list, in walk order. -/
def proteinIdWrites (fs : List Val) : List Val :=
  fs.flatMap (featureWrites proteinIdQualWrite "CDS")

/-- Total form of the normalized feature list of a record. -/
def featuresOfD (record : Val) : List Val :=
  forceList (dgetD (dgetD record "GBSeq_feature-table" (.obj [])) "GBFeature" .null)

/-- The wording of the specification for transcription: every T becomes U,
every other character is unchanged. -/
def tToU (s : String) : String :=
  String.mk (s.data.map (fun c => if c == 'T' then 'U' else c))

/-- The wording of the claim about HGNC normalization: strip exactly one
leading HGNC: prefix from a qualifier value. -/
def stripOneHGNC (s : String) : String :=
  if strStartsWith s "HGNC:" then String.mk (s.data.drop 5) else s

/-- Record constructor used to state claims: the top-level fields consumed
by population, plus a feature-table entry holding the given GBFeature
value. -/
def mkRec (acc seqv len mt gn gbf : Val) : Val :=
  .obj [("GBSeq_accession-version", acc), ("GBSeq_sequence", seqv),
        ("GBSeq_length", len), ("GBSeq_moltype", mt), ("GBSeq_definition", gn),
        ("GBSeq_feature-table", .obj [("GBFeature", gbf)])]

/-- Qualifier entry builder for concrete test records. -/
def mkQual (n v : String) : Val :=
  .obj [("GBQualifier_name", .str n), ("GBQualifier_value", .str v)]

/-- Feature entry builder for concrete test records. -/
def mkFeature (key : String) (qs : Val) : Val :=
  .obj [("GBFeature_key", .str key),
        ("GBFeature_quals", .obj [("GBQualifier", qs)])]

/-- A populated model used to exercise the exporters on concrete inputs. -/
def tFasta : Transcript :=
  { transcript_id := .str "NM_000093.5", gene_symbol := .null, hgnc_id := .null,
    dna_sequence := .str "ATGC", rna_sequence := .str "AUGC",
    protein_sequence := .str "MA", protein_id := .null,
    length := .null, mol_type := .null, gene_name := .null }

/-- A bypass-constructed model whose sequence fields are all unset. -/
def tNoSeq : Transcript :=
  { transcript_id := .str "NM_000093.5", gene_symbol := .null, hgnc_id := .null,
    dna_sequence := .null, rna_sequence := .null, protein_sequence := .null,
    protein_id := .null, length := .null, mol_type := .null, gene_name := .null }

/-- Concrete raw record whose gene feature carries a doubly prefixed HGNC
cross-reference, as observed in real records. -/
def recDoubleHGNC : Val :=
  mkRec (.str "NM_000093.5") (.str "atgc") (.str "4") (.str "mRNA") (.str "demo")
    (.list [mkFeature "gene"
      (.list [mkQual "gene" "COL5A1", mkQual "db_xref" "HGNC:HGNC:2197"])])

/-- Concrete raw record with repeated gene and CDS features and repeated
qualifiers, exercising the overwrite policy of the walk. -/
def recRepeats : Val :=
  mkRec (.str "NM_000093.5") (.str "atgc") (.str "4") (.str "mRNA") (.str "demo")
    (.list [mkFeature "gene" (.list [mkQual "gene" "AAA", mkQual "gene" "BBB"]),
            mkFeature "CDS" (.list [mkQual "translation" "MA", mkQual "protein_id" "NP_1.1"]),
            mkFeature "gene" (.list [mkQual "gene" "CCC", mkQual "db_xref" "HGNC:2187"]),
            mkFeature "CDS" (.list [mkQual "translation" "MR", mkQual "protein_id" "NP_2.1"])])

/-- Concrete raw record with a mixed-case sequence, exercising the
transcription and upper-casing path. -/
def recMixedSeq : Val :=
  mkRec (.str "NM_000093.5") (.str "atgcttag") (.str "8") (.str "mRNA") (.str "demo")
    (.list [])

/-- Concrete bare (unwrapped) feature entry. -/
def bareFeature : Val :=
  mkFeature "gene" (.list [mkQual "gene" "COL5A1", mkQual "db_xref" "HGNC:2187"])

/-- Concrete raw record whose only qualifier is the doubly prefixed HGNC
cross-reference. -/
def recC1w : Val :=
  mkRec (.str "NM_000093.5") (.str "atgc") .null .null .null
    (.list [mkFeature "gene" (.list [mkQual "db_xref" "HGNC:HGNC:2197"])])

/-- The transcript populated from recC1w. -/
def tC1w : Transcript :=
  { transcript_id := .str "NM_000093.5", gene_symbol := .null, hgnc_id := .str "2197",
    dna_sequence := .str "ATGC", rna_sequence := .str "AUGC", protein_sequence := .null,
    protein_id := .null, length := .null, mol_type := .null, gene_name := .null }

/-- The transcript populated from recRepeats. -/
def tC5 : Transcript :=
  { transcript_id := .str "NM_000093.5", gene_symbol := .str "CCC", hgnc_id := .str "2187",
    dna_sequence := .str "ATGC", rna_sequence := .str "AUGC", protein_sequence := .str "MR",
    protein_id := .str "NP_2.1", length := .str "4", mol_type := .str "mRNA",
    gene_name := .str "demo" }

/-- The transcript populated from recMixedSeq. -/
def tC6 : Transcript :=
  { transcript_id := .str "NM_000093.5", gene_symbol := .null, hgnc_id := .null,
    dna_sequence := .str "ATGCTTAG", rna_sequence := .str "AUGCUUAG",
    protein_sequence := .null, protein_id := .null, length := .str "8",
    mol_type := .str "mRNA", gene_name := .str "demo" }

theorem except_bind_ok {α β : Type} {x : Except PyErr α} {f : α → Except PyErr β} {c : β}
    (h : (x >>= f) = .ok c) : ∃ b, x = .ok b ∧ f b = .ok c := by
  cases x with
  | error e => simp [Bind.bind, Except.bind] at h
  | ok b => exact ⟨b, rfl, by simpa [Bind.bind, Except.bind] using h⟩

theorem get_ok {v : Val} {k : String} {x : Val} (h : v.get k = .ok x) :
    x = dgetD v k .null := by
  cases v <;> simp [Val.get] at h <;> simp [dgetD, h]

theorem getd_ok {v : Val} {k : String} {d x : Val} (h : v.getd k d = .ok x) :
    x = dgetD v k d := by
  cases v <;> simp [Val.getd] at h <;> simp [dgetD, h]

theorem upper_ok {v : Val} {s : String} (h : v.upper = .ok s) :
    ∃ s0, v = .str s0 ∧ s = pyUpperStr s0 := by
  cases v <;> simp [Val.upper] at h
  case str s0 => exact ⟨s0, rfl, h.symm⟩

theorem startswith_ok {v : Val} {pre : String} {b : Bool} (h : v.startswith pre = .ok b) :
    ∃ s, v = .str s ∧ b = strStartsWith s pre := by
  cases v <;> simp [Val.startswith] at h
  case str s0 => exact ⟨s0, rfl, h.symm⟩

theorem replace_ok {v : Val} {pat rep s : String} (h : v.replace pat rep = .ok s) :
    ∃ s0, v = .str s0 ∧ s = replaceAllStr pat rep s0 := by
  cases v <;> simp [Val.replace] at h
  case str s0 => exact ⟨s0, rfl, h.symm⟩

theorem eqStr_ne_false {v : Val} {a b : String} (h : v.eqStr a = true) (hne : a ≠ b) :
    v.eqStr b = false := by
  cases v <;> simp [Val.eqStr] at h ⊢
  case str t => subst h; exact hne

theorem lastD_nil (d : α) : lastD ([] : List α) d = d := rfl

theorem lastD_cons (x : α) (xs : List α) (d : α) : lastD (x :: xs) d = lastD xs x := rfl

theorem lastD_append (xs ys : List α) (d : α) :
    lastD (xs ++ ys) d = lastD ys (lastD xs d) := by
  simp [lastD, List.foldl_append]

theorem strStartsWith_empty_false : strStartsWith "" "HGNC:" = false := rfl

theorem dgetD_null_of_empty_default {q : Val} {k : String} {s : String}
    (hs : dgetD q k (.str "") = .str s) (hne : s ≠ "") :
    dgetD q k .null = .str s := by
  cases q <;> simp [dgetD] at hs ⊢
  case null => exact absurd hs.symm hne
  case str t => exact absurd hs.symm hne
  case list xs => exact absurd hs.symm hne
  case obj fs =>
    cases hl : lookupStr fs k with
    | none => rw [hl] at hs; simp at hs; exact absurd hs.symm hne
    | some w => rw [hl] at hs; simp at hs; simp [hs]

theorem pure_ok {α : Type} {a b : α} (h : (pure a : Except PyErr α) = .ok b) : a = b := by
  simpa [pure, Except.pure] using h

theorem processGeneQual_ok {t t1 : Transcript} {q : Val} (h : processGeneQual t q = .ok t1) :
    t1.gene_symbol = lastD (geneQualWrite q).toList t.gene_symbol ∧
    t1.hgnc_id = lastD (hgncQualWrite q).toList t.hgnc_id ∧
    t1.protein_sequence = t.protein_sequence ∧ t1.protein_id = t.protein_id ∧
    t1.transcript_id = t.transcript_id ∧ t1.dna_sequence = t.dna_sequence ∧
    t1.rna_sequence = t.rna_sequence ∧ t1.length = t.length ∧
    t1.mol_type = t.mol_type ∧ t1.gene_name = t.gene_name := by
  unfold processGeneQual at h
  obtain ⟨name, hname, h⟩ := except_bind_ok h
  rw [get_ok hname] at h
  cases hg : (dgetD q "GBQualifier_name" .null).eqStr "gene" with
  | true =>
    rw [if_pos hg] at h
    obtain ⟨v, hv, h⟩ := except_bind_ok h
    rw [get_ok hv] at h
    have ht1 := pure_ok h
    have hw : geneQualWrite q = some (dgetD q "GBQualifier_value" .null) := by
      simp [geneQualWrite, hg]
    have hnd : (dgetD q "GBQualifier_name" Val.null).eqStr "db_xref" = false :=
      @eqStr_ne_false _ "gene" "db_xref" hg (by decide)
    have hw2 : hgncQualWrite q = none := by
      simp [hgncQualWrite, hnd]
    subst ht1
    simp [hw, hw2, lastD]
  | false =>
    rw [if_neg (by simp [hg])] at h
    cases hd : (dgetD q "GBQualifier_name" .null).eqStr "db_xref" with
    | false =>
      rw [if_neg (by simp [hd])] at h
      have ht1 := pure_ok h
      subst ht1
      simp [geneQualWrite, hgncQualWrite, hg, hd, lastD]
    | true =>
      rw [if_pos hd] at h
      obtain ⟨vd, hvd, h⟩ := except_bind_ok h
      rw [getd_ok hvd] at h
      obtain ⟨b, hb, h⟩ := except_bind_ok h
      obtain ⟨s, hs, hbv⟩ := startswith_ok hb
      subst hbv
      cases hsw : strStartsWith s "HGNC:" with
      | false =>
        rw [hsw, if_neg (by simp)] at h
        have ht1 := pure_ok h
        subst ht1
        simp [geneQualWrite, hgncQualWrite, hg, hd, hs, hsw, lastD]
      | true =>
        rw [hsw, if_pos rfl] at h
        obtain ⟨v, hv, h⟩ := except_bind_ok h
        obtain ⟨s2, hs2, h2⟩ := except_bind_ok h
        obtain ⟨sv, hsv, hrep⟩ := replace_ok hs2
        have hsne : s ≠ "" := by
          intro he; rw [he] at hsw
          exact absurd hsw (by simp [strStartsWith_empty_false])
        have hvagree : dgetD q "GBQualifier_value" .null = .str s :=
          dgetD_null_of_empty_default hs hsne
        have hveq : v = .str s := by rw [get_ok hv, hvagree]
        have hsvs : sv = s := by
          rw [hveq] at hsv; exact (Val.str.injEq sv s).mp hsv.symm ▸ rfl
        have ht1 := pure_ok h2
        have hw : geneQualWrite q = none := by simp [geneQualWrite, hg]
        have hw2 : hgncQualWrite q = some (.str (replaceAllStr "HGNC:" "" s)) := by
          simp [hgncQualWrite, hd, hs, hsw]
        subst ht1
        rw [hrep, hsvs] at *
        simp [hw, hw2, lastD]

theorem processCDSQual_ok {t t1 : Transcript} {q : Val} (h : processCDSQual t q = .ok t1) :
    t1.protein_sequence = lastD (translationQualWrite q).toList t.protein_sequence ∧
    t1.protein_id = lastD (proteinIdQualWrite q).toList t.protein_id ∧
    t1.gene_symbol = t.gene_symbol ∧ t1.hgnc_id = t.hgnc_id ∧
    t1.transcript_id = t.transcript_id ∧ t1.dna_sequence = t.dna_sequence ∧
    t1.rna_sequence = t.rna_sequence ∧ t1.length = t.length ∧
    t1.mol_type = t.mol_type ∧ t1.gene_name = t.gene_name := by
  unfold processCDSQual at h
  obtain ⟨name, hname, h⟩ := except_bind_ok h
  rw [get_ok hname] at h
  cases ht : (dgetD q "GBQualifier_name" .null).eqStr "translation" with
  | true =>
    rw [if_pos ht] at h
    obtain ⟨v, hv, h⟩ := except_bind_ok h
    rw [get_ok hv] at h
    have ht1 := pure_ok h
    have hnp : (dgetD q "GBQualifier_name" Val.null).eqStr "protein_id" = false :=
      @eqStr_ne_false _ "translation" "protein_id" ht (by decide)
    have hw : translationQualWrite q = some (dgetD q "GBQualifier_value" .null) := by
      simp [translationQualWrite, ht]
    have hw2 : proteinIdQualWrite q = none := by
      simp [proteinIdQualWrite, hnp]
    subst ht1
    simp [hw, hw2, lastD]
  | false =>
    rw [if_neg (by simp [ht])] at h
    cases hp : (dgetD q "GBQualifier_name" .null).eqStr "protein_id" with
    | false =>
      rw [if_neg (by simp [hp])] at h
      have ht1 := pure_ok h
      subst ht1
      simp [translationQualWrite, proteinIdQualWrite, ht, hp, lastD]
    | true =>
      rw [if_pos hp] at h
      obtain ⟨v, hv, h⟩ := except_bind_ok h
      rw [get_ok hv] at h
      have ht1 := pure_ok h
      have hw : translationQualWrite q = none := by
        simp [translationQualWrite, ht]
      have hw2 : proteinIdQualWrite q = some (dgetD q "GBQualifier_value" .null) := by
        simp [proteinIdQualWrite, hp]
      subst ht1
      simp [hw, hw2, lastD]

theorem foldl_geneQuals_ok {qs : List Val} {t t1 : Transcript}
    (h : qs.foldlM processGeneQual t = .ok t1) :
    t1.gene_symbol = lastD (qs.filterMap geneQualWrite) t.gene_symbol ∧
    t1.hgnc_id = lastD (qs.filterMap hgncQualWrite) t.hgnc_id ∧
    t1.protein_sequence = t.protein_sequence ∧ t1.protein_id = t.protein_id ∧
    t1.transcript_id = t.transcript_id ∧ t1.dna_sequence = t.dna_sequence ∧
    t1.rna_sequence = t.rna_sequence ∧ t1.length = t.length ∧
    t1.mol_type = t.mol_type ∧ t1.gene_name = t.gene_name := by
  induction qs generalizing t with
  | nil =>
    have ht1 := pure_ok (by simpa [List.foldlM] using h)
    subst ht1
    simp [lastD]
  | cons q qs ih =>
    rw [List.foldlM_cons] at h
    obtain ⟨tm, hq, h⟩ := except_bind_ok h
    obtain ⟨g1, g2, g3, g4, g5, g6, g7, g8, g9, g10⟩ := processGeneQual_ok hq
    obtain ⟨i1, i2, i3, i4, i5, i6, i7, i8, i9, i10⟩ := ih h
    refine ⟨?_, ?_, by rw [i3, g3], by rw [i4, g4], by rw [i5, g5], by rw [i6, g6],
      by rw [i7, g7], by rw [i8, g8], by rw [i9, g9], by rw [i10, g10]⟩
    · rw [i1, g1]
      cases hw : geneQualWrite q <;>
        simp [List.filterMap_cons, hw, lastD_cons, Option.toList, lastD]
    · rw [i2, g2]
      cases hw : hgncQualWrite q <;>
        simp [List.filterMap_cons, hw, lastD_cons, Option.toList, lastD]

theorem foldl_cdsQuals_ok {qs : List Val} {t t1 : Transcript}
    (h : qs.foldlM processCDSQual t = .ok t1) :
    t1.protein_sequence = lastD (qs.filterMap translationQualWrite) t.protein_sequence ∧
    t1.protein_id = lastD (qs.filterMap proteinIdQualWrite) t.protein_id ∧
    t1.gene_symbol = t.gene_symbol ∧ t1.hgnc_id = t.hgnc_id ∧
    t1.transcript_id = t.transcript_id ∧ t1.dna_sequence = t.dna_sequence ∧
    t1.rna_sequence = t.rna_sequence ∧ t1.length = t.length ∧
    t1.mol_type = t.mol_type ∧ t1.gene_name = t.gene_name := by
  induction qs generalizing t with
  | nil =>
    have ht1 := pure_ok (by simpa [List.foldlM] using h)
    subst ht1
    simp [lastD]
  | cons q qs ih =>
    rw [List.foldlM_cons] at h
    obtain ⟨tm, hq, h⟩ := except_bind_ok h
    obtain ⟨g1, g2, g3, g4, g5, g6, g7, g8, g9, g10⟩ := processCDSQual_ok hq
    obtain ⟨i1, i2, i3, i4, i5, i6, i7, i8, i9, i10⟩ := ih h
    refine ⟨?_, ?_, by rw [i3, g3], by rw [i4, g4], by rw [i5, g5], by rw [i6, g6],
      by rw [i7, g7], by rw [i8, g8], by rw [i9, g9], by rw [i10, g10]⟩
    · rw [i1, g1]
      cases hw : translationQualWrite q <;>
        simp [List.filterMap_cons, hw, lastD_cons, Option.toList, lastD]
    · rw [i2, g2]
      cases hw : proteinIdQualWrite q <;>
        simp [List.filterMap_cons, hw, lastD_cons, Option.toList, lastD]

theorem processFeature_ok {t t1 : Transcript} {f : Val} (h : processFeature t f = .ok t1) :
    t1.gene_symbol = lastD (featureWrites geneQualWrite "gene" f) t.gene_symbol ∧
    t1.hgnc_id = lastD (featureWrites hgncQualWrite "gene" f) t.hgnc_id ∧
    t1.protein_sequence = lastD (featureWrites translationQualWrite "CDS" f) t.protein_sequence ∧
    t1.protein_id = lastD (featureWrites proteinIdQualWrite "CDS" f) t.protein_id ∧
    t1.transcript_id = t.transcript_id ∧ t1.dna_sequence = t.dna_sequence ∧
    t1.rna_sequence = t.rna_sequence ∧ t1.length = t.length ∧
    t1.mol_type = t.mol_type ∧ t1.gene_name = t.gene_name := by
  unfold processFeature at h
  obtain ⟨key, hkey, h⟩ := except_bind_ok h
  rw [get_ok hkey] at h
  obtain ⟨fq, hfq, h⟩ := except_bind_ok h
  rw [getd_ok hfq] at h
  obtain ⟨gbq, hgbq, h⟩ := except_bind_ok h
  rw [get_ok hgbq] at h
  have hquals : forceList (dgetD (dgetD f "GBFeature_quals" (.obj [])) "GBQualifier" .null)
      = qualsOfD f := rfl
  rw [hquals] at h
  cases hk : (dgetD f "GBFeature_key" .null).eqStr "gene" with
  | true =>
    rw [if_pos hk] at h
    have hnc : (featureKeyD f).eqStr "CDS" = false :=
      @eqStr_ne_false _ "gene" "CDS" hk (by decide)
    obtain ⟨g1, g2, g3, g4, g5, g6, g7, g8, g9, g10⟩ := foldl_geneQuals_ok h
    refine ⟨?_, ?_, ?_, ?_, g5, g6, g7, g8, g9, g10⟩
    · rw [g1]; simp [featureWrites, featureKeyD, hk]
    · rw [g2]; simp [featureWrites, featureKeyD, hk]
    · rw [g3]; simp [featureWrites, hnc, lastD]
    · rw [g4]; simp [featureWrites, hnc, lastD]
  | false =>
    rw [if_neg (by simp [hk])] at h
    cases hc : (dgetD f "GBFeature_key" .null).eqStr "CDS" with
    | true =>
      rw [if_pos hc] at h
      obtain ⟨g1, g2, g3, g4, g5, g6, g7, g8, g9, g10⟩ := foldl_cdsQuals_ok h
      refine ⟨?_, ?_, ?_, ?_, g5, g6, g7, g8, g9, g10⟩
      · rw [g3]; simp [featureWrites, featureKeyD, hk, lastD]
      · rw [g4]; simp [featureWrites, featureKeyD, hk, lastD]
      · rw [g1]; simp [featureWrites, featureKeyD, hc]
      · rw [g2]; simp [featureWrites, featureKeyD, hc]
    | false =>
      rw [if_neg (by simp [hc])] at h
      have ht1 := pure_ok h
      subst ht1
      simp [featureWrites, featureKeyD, hk, hc, lastD]

theorem walk_ok {fs : List Val} {t t1 : Transcript}
    (h : fs.foldlM processFeature t = .ok t1) :
    t1.gene_symbol = lastD (geneSymbolWrites fs) t.gene_symbol ∧
    t1.hgnc_id = lastD (hgncIdWrites fs) t.hgnc_id ∧
    t1.protein_sequence = lastD (proteinSeqWrites fs) t.protein_sequence ∧
    t1.protein_id = lastD (proteinIdWrites fs) t.protein_id ∧
    t1.transcript_id = t.transcript_id ∧ t1.dna_sequence = t.dna_sequence ∧
    t1.rna_sequence = t.rna_sequence ∧ t1.length = t.length ∧
    t1.mol_type = t.mol_type ∧ t1.gene_name = t.gene_name := by
  induction fs generalizing t with
  | nil =>
    have ht1 := pure_ok (by simpa [List.foldlM] using h)
    subst ht1
    simp [geneSymbolWrites, hgncIdWrites, proteinSeqWrites, proteinIdWrites, lastD]
  | cons f fs ih =>
    rw [List.foldlM_cons] at h
    obtain ⟨tm, hf, h⟩ := except_bind_ok h
    obtain ⟨g1, g2, g3, g4, g5, g6, g7, g8, g9, g10⟩ := processFeature_ok hf
    obtain ⟨i1, i2, i3, i4, i5, i6, i7, i8, i9, i10⟩ := ih h
    refine ⟨?_, ?_, ?_, ?_, by rw [i5, g5], by rw [i6, g6],
      by rw [i7, g7], by rw [i8, g8], by rw [i9, g9], by rw [i10, g10]⟩
    · rw [i1, g1]; simp [geneSymbolWrites, List.flatMap_cons, lastD_append]
    · rw [i2, g2]; simp [hgncIdWrites, List.flatMap_cons, lastD_append]
    · rw [i3, g3]; simp [proteinSeqWrites, List.flatMap_cons, lastD_append]
    · rw [i4, g4]; simp [proteinIdWrites, List.flatMap_cons, lastD_append]

theorem featuresOf_ok {record : Val} {l : List Val} (h : featuresOf record = .ok l) :
    l = featuresOfD record := by
  unfold featuresOf at h
  obtain ⟨ft, hft, h⟩ := except_bind_ok h
  rw [getd_ok hft] at h
  obtain ⟨gbf, hgbf, h⟩ := except_bind_ok h
  rw [get_ok hgbf] at h
  exact (pure_ok h).symm

theorem populateTop_ok {tid : String} {record : Val} {t1 : Transcript}
    (h : populateTop tid record = .ok t1) :
    t1.gene_symbol = .null ∧ t1.hgnc_id = .null ∧ t1.protein_sequence = .null ∧
    t1.protein_id = .null ∧
    ∃ s0, t1.dna_sequence = .str (pyUpperStr s0) ∧
      t1.rna_sequence = .str (replaceAllStr "T" "U" (pyUpperStr s0)) := by
  unfold populateTop at h
  obtain ⟨acc, hacc, h⟩ := except_bind_ok h
  obtain ⟨seqv, hseq, h⟩ := except_bind_ok h
  obtain ⟨dna, hdna, h⟩ := except_bind_ok h
  obtain ⟨s0, hs0, hdna2⟩ := upper_ok hdna
  obtain ⟨len, hlen, h⟩ := except_bind_ok h
  obtain ⟨mt, hmt, h⟩ := except_bind_ok h
  obtain ⟨gn, hgn, h⟩ := except_bind_ok h
  have ht1 := pure_ok h
  subst ht1 hdna2
  exact ⟨rfl, rfl, rfl, rfl, s0, rfl, rfl⟩

theorem char_toNat_ofNat (n : Nat) (h : n < 55296) : (Char.ofNat n).toNat = n := by
  simp [Char.ofNat, Nat.isValidChar, h, Char.ofNatAux, Char.toNat, UInt32.toNat,
    BitVec.toNat_ofNatLt]

theorem pyUpperChar_not_lower (c : Char) :
    ¬(97 ≤ (pyUpperChar c).toNat ∧ (pyUpperChar c).toNat ≤ 122) := by
  unfold pyUpperChar
  by_cases h : 97 ≤ c.toNat ∧ c.toNat ≤ 122
  · rw [if_pos h]
    have hh : (Char.ofNat (c.toNat - 32)).toNat = c.toNat - 32 :=
      char_toNat_ofNat _ (by omega)
    omega
  · rw [if_neg h]
    omega

theorem pyUpperChar_fix {c : Char} (h : ¬(97 ≤ c.toNat ∧ c.toNat ≤ 122)) :
    pyUpperChar c = c := by
  unfold pyUpperChar
  rw [if_neg h]

theorem pyUpperChar_idem (c : Char) : pyUpperChar (pyUpperChar c) = pyUpperChar c :=
  pyUpperChar_fix (pyUpperChar_not_lower c)

theorem pyUpperChar_tu (c : Char) :
    pyUpperChar (if pyUpperChar c == 'T' then 'U' else pyUpperChar c) =
      (if pyUpperChar c == 'T' then 'U' else pyUpperChar c) := by
  by_cases h : pyUpperChar c == 'T'
  · simp only [if_pos h]
    decide
  · simp only [if_neg h]
    exact pyUpperChar_idem c

theorem map_upper_idem (l : List Char) :
    (l.map pyUpperChar).map pyUpperChar = l.map pyUpperChar := by
  induction l with
  | nil => rfl
  | cons c cs ih => simp only [List.map_cons, ih, pyUpperChar_idem]

theorem map_tu_upper_fix (l : List Char) :
    ((l.map pyUpperChar).map (fun c => if c == 'T' then 'U' else c)).map pyUpperChar =
      (l.map pyUpperChar).map (fun c => if c == 'T' then 'U' else c) := by
  induction l with
  | nil => rfl
  | cons c cs ih => simp only [List.map_cons, ih, pyUpperChar_tu]

theorem replaceAllGo_single (a b : Char) (fuel : Nat) :
    ∀ l : List Char, l.length ≤ fuel →
      replaceAllGo [a] [b] fuel l = l.map (fun c => if c == a then b else c) := by
  induction fuel with
  | zero =>
    intro l hl
    cases l with
    | nil => rfl
    | cons c cs => simp at hl
  | succ n ih =>
    intro l hl
    cases l with
    | nil => rfl
    | cons c cs =>
      have hcs : cs.length ≤ n := by simpa using hl
      by_cases h : c = a
      · subst h
        have hstep : replaceAllGo [c] [b] (n + 1) (c :: cs)
            = [b] ++ replaceAllGo [c] [b] n (cs.drop (([c] : List Char).length - 1)) := by
          simp [replaceAllGo, List.isPrefixOf]
        rw [hstep]
        simp only [List.length_cons, List.length_nil, Nat.sub_self, Nat.zero_add,
          Nat.add_sub_cancel, List.drop_zero]
        rw [ih cs hcs]
        simp
      · have hba : (a == c) = false := by simp [Ne.symm h]
        have hca : (c == a) = false := by simp [h]
        have hstep : replaceAllGo [a] [b] (n + 1) (c :: cs)
            = c :: replaceAllGo [a] [b] n cs := by
          simp [replaceAllGo, List.isPrefixOf, hba]
        rw [hstep, ih cs hcs]
        simp [h]

theorem replaceAllStr_TU (s : String) : replaceAllStr "T" "U" s = tToU s := by
  unfold replaceAllStr tToU
  exact congrArg String.mk (replaceAllGo_single 'T' 'U' s.data.length s.data le_rfl)

theorem pyUpperStr_idem (s : String) : pyUpperStr (pyUpperStr s) = pyUpperStr s :=
  congrArg String.mk (map_upper_idem s.data)

theorem pyUpperStr_tToU_upper (s : String) :
    pyUpperStr (tToU (pyUpperStr s)) = tToU (pyUpperStr s) :=
  congrArg String.mk (map_tu_upper_fix s.data)

theorem tToU_length (s : String) : (tToU s).length = s.length := by
  cases s with
  | mk data =>
    show (List.map _ data).length = data.length
    exact List.length_map data _

theorem ne_null_of_isNull_false {v : Val} (h : v.isNull = false) : v ≠ .null := by
  intro he
  rw [he] at h
  simp [Val.isNull] at h

theorem str_append_assoc (a b c : String) : a ++ b ++ c = a ++ (b ++ c) := by
  apply String.ext
  simp [String.data_append, List.append_assoc]

/-- C7: the list-normalization utility `_force_list` is total and
implements exactly the three advertised cases: the absent marker (None)
yields the empty list, a list is returned unchanged with its order
preserved, and any other single item is wrapped in a one-element list. -/
theorem C7_force_list_cases (x : Val) :
    (x = .null → forceList x = []) ∧
    (∀ xs, x = .list xs → forceList x = xs) ∧
    (x ≠ .null → x.isList = false → forceList x = [x]) := by
  refine ⟨?_, ?_, ?_⟩
  · intro h
    subst h
    rfl
  · intro xs h
    subst h
    rfl
  · intro h1 h2
    cases x with
    | null => exact absurd rfl h1
    | str s => rfl
    | list xs => simp [Val.isList] at h2
    | obj fs => rfl

/-- Witness for C7 at the absent marker, a one-element list, and a bare
dict item. -/
theorem C7_force_list_cases_witness :
    forceList .null = [] ∧
    forceList (.list [bareFeature]) = [bareFeature] ∧
    forceList bareFeature = [bareFeature] :=
  ⟨(C7_force_list_cases .null).1 rfl,
   (C7_force_list_cases (.list [bareFeature])).2.1 [bareFeature] rfl,
   (C7_force_list_cases bareFeature).2.2 (ne_null_of_isNull_false rfl) rfl⟩

/-- C8: an identifier that lacks all four recognized prefixes, or that
contains no version separator, makes `fetch_transcript_record` raise the
typed TranscriptIdError instead of issuing the network request. -/
theorem C8_invalid_id_rejected (tid : String)
    (h : (strStartsWith tid "NM_" || strStartsWith tid "NR_" ||
          strStartsWith tid "XM_" || strStartsWith tid "XR_") = false ∨
         strContainsChar tid '.' = false) :
    (∃ m, fetch_transcript_record tid = .transcriptIdError m) ∧
    ∀ r, fetch_transcript_record tid ≠ .request r := by
  have heq : ∃ m, fetch_transcript_record tid = .transcriptIdError m := by
    cases hpre : (strStartsWith tid "NM_" || strStartsWith tid "NR_" ||
        strStartsWith tid "XM_" || strStartsWith tid "XR_") with
    | false =>
      exact ⟨_, by unfold fetch_transcript_record; rw [hpre]; rfl⟩
    | true =>
      cases h with
      | inl hf => rw [hpre] at hf; simp at hf
      | inr hdot =>
        exact ⟨_, by unfold fetch_transcript_record; rw [hpre, hdot]; rfl⟩
  obtain ⟨m, hm⟩ := heq
  exact ⟨⟨m, hm⟩, fun r hr => by rw [hm] at hr; cases hr⟩

/-- Witness for C8 at an identifier without a recognized prefix and at an
identifier without a version separator. -/
theorem C8_invalid_id_rejected_witness :
    ((∃ m, fetch_transcript_record "ABC123" = .transcriptIdError m) ∧
      ∀ r, fetch_transcript_record "ABC123" ≠ .request r) ∧
    ((∃ m, fetch_transcript_record "NM_000093" = .transcriptIdError m) ∧
      ∀ r, fetch_transcript_record "NM_000093" ≠ .request r) :=
  ⟨C8_invalid_id_rejected "ABC123" (Or.inl rfl),
   C8_invalid_id_rejected "NM_000093" (Or.inr rfl)⟩

/-- C9: plain-sequence export with kind DNA on a model whose dna_sequence
is ATGC returns exactly the two-line block of header then sequence. -/
theorem C9_fasta_dna_exact (tid : String) (t : Transcript)
    (h1 : t.transcript_id = .str tid) (h2 : t.dna_sequence = .str "ATGC") :
    asFasta t .null "DNA" = .ok (">" ++ tid ++ " | DNA" ++ "\n" ++ "ATGC") := by
  have hstep : asFasta t .null "DNA" =
      .ok ((">" ++ pyStr t.transcript_id ++ " | " ++ "DNA") ++ "\n" ++
        pyStr (if t.dna_sequence.isNull || t.dna_sequence.eqStr "" then Val.str ""
          else t.dna_sequence)) := rfl
  rw [hstep, h1, h2]
  show Except.ok ((">" ++ tid ++ " | " ++ "DNA") ++ "\n" ++ "ATGC") = _
  have hx : ">" ++ tid ++ " | " ++ "DNA" = ">" ++ tid ++ " | DNA" := by
    rw [str_append_assoc (">" ++ tid) " | " "DNA"]
    rfl
  rw [hx]

/-- Witness for C9 at a concrete populated model. -/
theorem C9_fasta_dna_exact_witness :
    tFasta.transcript_id = .str "NM_000093.5" ∧ tFasta.dna_sequence = .str "ATGC" ∧
    asFasta tFasta .null "DNA" = .ok (">" ++ "NM_000093.5" ++ " | DNA" ++ "\n" ++ "ATGC") :=
  ⟨rfl, rfl, C9_fasta_dna_exact "NM_000093.5" tFasta rfl rfl⟩

/-- C10: with an explicit non-None sequence argument, both exporters
return a formatted block and never raise, for every seq_type string, and
the unvalidated seq_type appears verbatim in the header. -/
theorem C10_explicit_seq_no_validation (t : Transcript) (sequence : Val) (st : String)
    (h : sequence.isNull = false) :
    (∃ out, asFasta t sequence st = .ok out ∧
      ∃ tl, out = ">" ++ pyStr t.transcript_id ++ " | " ++ st ++ "\n" ++ tl) ∧
    (∃ out, asGenbank t sequence st = .ok out ∧
      ∃ tla tlb, out = "LOCUS        " ++ pyStr t.transcript_id ++ "\n" ++
        "DEFINITION   " ++ st ++ " sequence\n" ++ "ORIGIN\n" ++ tla ++ tlb) := by
  have h1 : asFasta t sequence st =
      .ok ((">" ++ pyStr t.transcript_id ++ " | " ++ st) ++ "\n" ++
        pyStr (if sequence.eqStr "" then Val.str "" else sequence)) := by
    simp only [asFasta, pure_bind, h, Bool.false_eq_true, if_false, Bool.false_or]
    rfl
  have h2 : asGenbank t sequence st =
      .ok ("LOCUS        " ++ pyStr t.transcript_id ++ "\n" ++
        "DEFINITION   " ++ st ++ " sequence\n" ++ "ORIGIN\n" ++
        pyStr (if sequence.eqStr "" then Val.str "" else sequence) ++ "\n//") := by
    simp only [asGenbank, pure_bind, h, Bool.false_eq_true, if_false, Bool.false_or]
    rfl
  exact ⟨⟨_, h1, _, rfl⟩, ⟨_, h2, _, _, rfl⟩⟩

/-- Witness for C10 at a concrete model, an explicit sequence, and the
unrecognized kind selector "invalid". -/
theorem C10_explicit_seq_no_validation_witness :
    (Val.str "ATGC").isNull = false ∧
    ((∃ out, asFasta tFasta (.str "ATGC") "invalid" = .ok out ∧
      ∃ tl, out = ">" ++ pyStr tFasta.transcript_id ++ " | " ++ "invalid" ++ "\n" ++ tl) ∧
    (∃ out, asGenbank tFasta (.str "ATGC") "invalid" = .ok out ∧
      ∃ tla tlb, out = "LOCUS        " ++ pyStr tFasta.transcript_id ++ "\n" ++
        "DEFINITION   " ++ "invalid" ++ " sequence\n" ++ "ORIGIN\n" ++ tla ++ tlb)) :=
  ⟨rfl, C10_explicit_seq_no_validation tFasta (.str "ATGC") "invalid" rfl⟩

/-- C4: a feature-table entry holding a single bare feature object is
normalized and walked exactly like the same feature wrapped in a
one-element list: `_force_list` maps both to the same list, and
population of the two record variants produces identical results. -/
theorem C4_singular_transparent (tid : String) (acc seqv len mt gn x : Val)
    (h1 : x.isList = false) (h2 : x ≠ .null) :
    forceList x = forceList (.list [x]) ∧
    fetchAndPopulateWith tid (mkRec acc seqv len mt gn x) =
      fetchAndPopulateWith tid (mkRec acc seqv len mt gn (.list [x])) := by
  have hf : forceList x = [x] := by
    cases x with
    | null => exact absurd rfl h2
    | str s => rfl
    | list xs => simp [Val.isList] at h1
    | obj fs => rfl
  constructor
  · rw [hf]
    rfl
  · unfold fetchAndPopulateWith
    have e1 : featuresOf (mkRec acc seqv len mt gn x) = .ok (forceList x) := rfl
    have e2 : featuresOf (mkRec acc seqv len mt gn (.list [x])) =
        .ok (forceList (.list [x])) := rfl
    have e3 : populateTop tid (mkRec acc seqv len mt gn x) =
        populateTop tid (mkRec acc seqv len mt gn (.list [x])) := rfl
    have e4 : forceList (Val.list [x]) = [x] := rfl
    rw [e3]
    simp only [e1, e2, hf, e4]

/-- Witness for C4 at a concrete bare feature inside an otherwise
complete record. -/
theorem C4_singular_transparent_witness :
    forceList bareFeature = forceList (.list [bareFeature]) ∧
    fetchAndPopulateWith "NM_000093.5"
        (mkRec (.str "NM_000093.5") (.str "atgc") .null .null .null bareFeature) =
      fetchAndPopulateWith "NM_000093.5"
        (mkRec (.str "NM_000093.5") (.str "atgc") .null .null .null (.list [bareFeature])) :=
  C4_singular_transparent "NM_000093.5" (.str "NM_000093.5") (.str "atgc") .null .null .null
    bareFeature rfl (ne_null_of_isNull_false rfl)

/-- C5: population follows a last-write-wins policy: after a successful
populate, gene_symbol, hgnc_id, protein_sequence and protein_id each hold
the value contributed by the last matching qualifier in walk order (or
remain None when no qualifier matched). -/
theorem C5_last_write_wins (tid : String) (record : Val) (t : Transcript)
    (h : fetchAndPopulateWith tid record = .ok t) :
    t.gene_symbol = lastD (geneSymbolWrites (featuresOfD record)) .null ∧
    t.hgnc_id = lastD (hgncIdWrites (featuresOfD record)) .null ∧
    t.protein_sequence = lastD (proteinSeqWrites (featuresOfD record)) .null ∧
    t.protein_id = lastD (proteinIdWrites (featuresOfD record)) .null := by
  unfold fetchAndPopulateWith at h
  obtain ⟨t1, ht1, h⟩ := except_bind_ok h
  obtain ⟨fs, hfs, h⟩ := except_bind_ok h
  obtain ⟨g1, g2, g3, g4, hg5⟩ := populateTop_ok ht1
  obtain ⟨w1, w2, w3, w4, hw5⟩ := walk_ok h
  rw [featuresOf_ok hfs] at w1 w2 w3 w4
  exact ⟨by rw [w1, g1], by rw [w2, g2], by rw [w3, g3], by rw [w4, g4]⟩

/-- Witness for C5 at a record with two gene features and two CDS
features carrying repeated qualifiers: the later values win. -/
theorem C5_last_write_wins_witness :
    fetchAndPopulateWith "NM_000093.5" recRepeats = .ok tC5 ∧
    (tC5.gene_symbol = lastD (geneSymbolWrites (featuresOfD recRepeats)) .null ∧
     tC5.hgnc_id = lastD (hgncIdWrites (featuresOfD recRepeats)) .null ∧
     tC5.protein_sequence = lastD (proteinSeqWrites (featuresOfD recRepeats)) .null ∧
     tC5.protein_id = lastD (proteinIdWrites (featuresOfD recRepeats)) .null) ∧
    tC5.gene_symbol = .str "CCC" ∧ tC5.hgnc_id = .str "2187" ∧
    tC5.protein_sequence = .str "MR" ∧ tC5.protein_id = .str "NP_2.1" :=
  ⟨rfl, C5_last_write_wins "NM_000093.5" recRepeats tC5 rfl, rfl, rfl, rfl, rfl⟩

/-- C6: for every record on which population succeeds, rna_sequence is
dna_sequence with every T replaced by U, both strings are upper-case
(fixed points of upper-casing), and their lengths are equal. -/
theorem C6_transcription (tid : String) (record : Val) (t : Transcript)
    (h : fetchAndPopulateWith tid record = .ok t) :
    ∃ d r : String, t.dna_sequence = .str d ∧ t.rna_sequence = .str r ∧
      r = tToU d ∧ pyUpperStr d = d ∧ pyUpperStr r = r ∧ d.length = r.length := by
  unfold fetchAndPopulateWith at h
  obtain ⟨t1, ht1, h⟩ := except_bind_ok h
  obtain ⟨fs, hfs, h⟩ := except_bind_ok h
  obtain ⟨g1, g2, g3, g4, s0, hdna, hrna⟩ := populateTop_ok ht1
  obtain ⟨w1, w2, w3, w4, w5, w6, w7, w8, w9, w10⟩ := walk_ok h
  refine ⟨pyUpperStr s0, replaceAllStr "T" "U" (pyUpperStr s0),
    by rw [w6, hdna], by rw [w7, hrna], ?_, pyUpperStr_idem s0, ?_, ?_⟩
  · exact replaceAllStr_TU (pyUpperStr s0)
  · rw [replaceAllStr_TU]
    exact pyUpperStr_tToU_upper s0
  · rw [replaceAllStr_TU]
    exact (tToU_length (pyUpperStr s0)).symm

/-- Witness for C6 at a record with the mixed-case sequence atgcttag. -/
theorem C6_transcription_witness :
    fetchAndPopulateWith "NM_000093.5" recMixedSeq = .ok tC6 ∧
    (∃ d r : String, tC6.dna_sequence = .str d ∧ tC6.rna_sequence = .str r ∧
      r = tToU d ∧ pyUpperStr d = d ∧ pyUpperStr r = r ∧ d.length = r.length) ∧
    tC6.dna_sequence = .str "ATGCTTAG" ∧ tC6.rna_sequence = .str "AUGCUUAG" :=
  ⟨rfl, C6_transcription "NM_000093.5" recMixedSeq tC6 rfl, rfl, rfl⟩

/-- C1 counterexample: the code removes every "HGNC:" occurrence (Python
str.replace replaces all occurrences), so the doubly prefixed value
"HGNC:HGNC:2197" populates hgnc_id as "2197", not the single-strip result
"HGNC:2197" asserted by the claim. -/
theorem C1_counterexample :
    (fetchAndPopulateWith "NM_000093.5" recDoubleHGNC).map (fun t => t.hgnc_id) =
      .ok (.str "2197") ∧
    stripOneHGNC "HGNC:HGNC:2197" = "HGNC:2197" ∧
    Val.str "2197" ≠ Val.str "HGNC:2197" := by
  refine ⟨rfl, rfl, ?_⟩
  simp

/-- C1 amended: when a gene feature has a db_xref qualifier whose string
value starts with "HGNC:", population sets hgnc_id to the value with
every occurrence of "HGNC:" removed, so a doubly prefixed value is fully
collapsed rather than single-stripped. -/
theorem C1_hgnc_strips_all (v : String) (t : Transcript)
    (hv : strStartsWith v "HGNC:" = true)
    (h : fetchAndPopulateWith "NM_000093.5"
        (mkRec (.str "NM_000093.5") (.str "atgc") .null .null .null
          (.list [mkFeature "gene" (.list [mkQual "db_xref" v])])) = .ok t) :
    t.hgnc_id = .str (replaceAllStr "HGNC:" "" v) := by
  unfold fetchAndPopulateWith at h
  obtain ⟨t1, ht1, h⟩ := except_bind_ok h
  obtain ⟨fs, hfs, h⟩ := except_bind_ok h
  obtain ⟨g1, g2, g3, g4, hg5⟩ := populateTop_ok ht1
  obtain ⟨w1, w2, w3, w4, hw5⟩ := walk_ok h
  rw [featuresOf_ok hfs] at w2
  rw [w2, g2]
  have hq : hgncQualWrite (mkQual "db_xref" v) =
      if strStartsWith v "HGNC:" = true then some (.str (replaceAllStr "HGNC:" "" v))
      else none := rfl
  have hq2 : hgncQualWrite (mkQual "db_xref" v) =
      some (.str (replaceAllStr "HGNC:" "" v)) := by
    rw [hq, if_pos hv]
  have h5 : lastD (hgncIdWrites (featuresOfD
      (mkRec (.str "NM_000093.5") (.str "atgc") .null .null .null
        (.list [mkFeature "gene" (.list [mkQual "db_xref" v])])))) Val.null =
      lastD (List.filterMap hgncQualWrite [mkQual "db_xref" v] ++ []) Val.null := rfl
  rw [h5]
  simp [List.filterMap_cons, hq2, lastD]

/-- Witness for C1 amended at the doubly prefixed value HGNC:HGNC:2197,
which collapses to 2197. -/
theorem C1_hgnc_strips_all_witness :
    strStartsWith "HGNC:HGNC:2197" "HGNC:" = true ∧
    fetchAndPopulateWith "NM_000093.5" recC1w = .ok tC1w ∧
    tC1w.hgnc_id = .str (replaceAllStr "HGNC:" "" "HGNC:HGNC:2197") ∧
    replaceAllStr "HGNC:" "" "HGNC:HGNC:2197" = "2197" :=
  ⟨rfl, rfl, C1_hgnc_strips_all "HGNC:HGNC:2197" tC1w rfl rfl, rfl⟩

/-- C2: against the claim and the method docstrings, the protein kind can
never be selected: the code compares the upper-cased selector against the
lower-case literal "protein", so every case variant of "protein" raises,
while the DNA and RNA kinds are accepted in any case. -/
theorem C2_protein_selector_never_matches :
    asFasta tFasta .null "protein" = .error (.valueError "Unknown seq_type: protein") ∧
    asFasta tFasta .null "Protein" = .error (.valueError "Unknown seq_type: Protein") ∧
    asFasta tFasta .null "PROTEIN" = .error (.valueError "Unknown seq_type: PROTEIN") ∧
    asGenbank tFasta .null "protein" = .error (.valueError "Unknown seq_type: protein") ∧
    asFasta tFasta .null "dna" = .ok (">NM_000093.5 | dna\nATGC") ∧
    asFasta tFasta .null "rna" = .ok (">NM_000093.5 | rna\nAUGC") :=
  ⟨rfl, rfl, rfl, rfl, rfl, rfl⟩

/-- C3: the raise condition is not "matches none of the three recognized
kinds": the recognized kind protein raises in every letter case (even
with protein data present), while an unset sequence field only yields a
header with an empty sequence line, as the claim's second half states. -/
theorem C3_raise_iff_fails_for_protein :
    asFasta tFasta .null "PROTEIN" = .error (.valueError "Unknown seq_type: PROTEIN") ∧
    asGenbank tFasta .null "Protein" = .error (.valueError "Unknown seq_type: Protein") ∧
    asFasta tNoSeq .null "DNA" = .ok (">NM_000093.5 | DNA\n") ∧
    asGenbank tNoSeq .null "RNA" =
      .ok ("LOCUS        NM_000093.5\nDEFINITION   RNA sequence\nORIGIN\n\n//") ∧
    asFasta tNoSeq .null "rna" = .ok (">NM_000093.5 | rna\n") :=
  ⟨rfl, rfl, rfl, rfl, rfl⟩

end GBSeq
